import Mathlib

/-!
Shallow embedding of the RAG orchestration core of `src/rag_engine.py`
(class `RagEngine`), together with the parts of `src/app.py` that drive it.

External collaborators (PDF loader, text splitter internals, embedding
provider, vector similarity search, language model, filesystem) are passed
in as explicit parameters; the orchestration logic itself — metadata
stamping, store creation/append, listing with deduplication, delete by
metadata filter, clear, and the LCEL chain wiring — is translated directly
from the source.
-/

namespace RagSpec

/-- One page produced by `PyPDFLoader.load`: its text plus the `source`
metadata, which the loader initialises to the file path it was loaded from. -/
structure Page where
  page_content : String
  source : String
  deriving DecidableEq, Repr

/-- One Index Entry persisted in the vector store: chunk text plus its
metadata, of which only the `source` field matters to the engine.  Entries
written by other clients may lack a `source`, hence the `Option`. -/
structure IndexEntry where
  text : String
  source : Option String
  deriving DecidableEq, Repr

/-- Contents of the Chroma vector store, as an ordered list of entries. -/
abbrev Store := List IndexEntry

/-- The mutable state of a `RagEngine`: the in-memory store handle
(`self.vector_store`, `None` when uninitialised) and whether the persisted
directory `PERSIST_DIRECTORY = "db"` exists on disk. -/
structure EngineState where
  vector_store : Option Store
  persistDirExists : Bool
  deriving DecidableEq, Repr

/-- `RagEngine._init_vector_store`: if the persist directory exists the
store is opened from it (its persisted contents become the handle),
otherwise the handle is `None`. -/
def init_vector_store (persisted : Option Store) : EngineState :=
  match persisted with
  | some s => { vector_store := some s, persistDirExists := true }
  | none => { vector_store := none, persistDirExists := false }

/-- Engine state right after `RagEngine.__init__` on a machine where the
persist directory does not exist yet. -/
def freshState : EngineState := init_vector_store none

/-- The metadata-stamping loop of `ingest_pdf`: `if original_filename:
doc.metadata["source"] = original_filename`.  Python truthiness: `None`
and the empty string are falsy, so stamping happens only for a non-empty
filename. -/
def stampSource (original_filename : Option String) (p : Page) : Page :=
  match original_filename with
  | some name => if name = "" then p else { p with source := name }
  | none => p

/-- `RecursiveCharacterTextSplitter.split_documents`: each page's text is
split into pieces (the character-level splitting algorithm is the external
library's job, passed in as `splitText`), and every resulting chunk
inherits the page's metadata, in particular its `source`. -/
def split_documents (splitText : String → List String) (docs : List Page) :
    List IndexEntry :=
  docs.flatMap fun p => (splitText p.page_content).map fun t =>
    { text := t, source := some p.source }

/-- How Python's f-string renders the `original_filename` argument inside
the success message (a `None` argument prints as `None`). -/
def fmtName : Option String → String
  | some n => n
  | none => "None"

/-- `RagEngine.ingest_pdf`.  `loadResult` is the outcome of
`PyPDFLoader(file_path).load()` (pages, or the exception message);
`storeFault` is a possible exception raised by
`Chroma.from_documents` / `add_documents`.  The `try/except` turns every
failure into the `"Error al procesar PDF: ..."` message and leaves the
state as it was; on success the chunks are either the new store (first
ingestion) or appended to the existing one. -/
def ingest_pdf (splitText : String → List String)
    (loadResult : Except String (List Page)) (storeFault : Option String)
    (st : EngineState) (original_filename : Option String) :
    EngineState × String :=
  match loadResult with
  | .error e => (st, "Error al procesar PDF: " ++ e)
  | .ok documents =>
    let documents := documents.map (stampSource original_filename)
    let chunks := split_documents splitText documents
    match storeFault with
    | some e => (st, "Error al procesar PDF: " ++ e)
    | none =>
      let newStore : Store :=
        match st.vector_store with
        | none => chunks
        | some s => s ++ chunks
      ({ vector_store := some newStore, persistDirExists := true },
        "Procesado correctamente: " ++ toString chunks.length
          ++ " fragmentos de " ++ "\x27" ++ fmtName original_filename
          ++ "\x27.")

/-- `os.path.basename` on a POSIX path: everything after the last slash
(the whole string when it contains no slash). -/
def basename (p : String) : String :=
  String.mk (p.data.foldl (fun acc c => if c = '/' then [] else acc ++ [c]) [])

/-- `RagEngine.get_ingested_files`: empty when the handle is `None`;
otherwise read all metadata, collect `os.path.basename(meta['source'])`
of every entry that has a `source`, and deduplicate (the Python `set` is
modelled as `List.dedup`, one representative per distinct value). -/
def get_ingested_files (st : EngineState) : List String :=
  match st.vector_store with
  | none => []
  | some s => (((s.filterMap IndexEntry.source).map basename)).dedup

/-- `RagEngine.delete_file`: error message when the store is
uninitialised, otherwise `vector_store.delete(where={"source": filename})`
removes exactly the entries whose `source` metadata equals `filename`. -/
def delete_file (st : EngineState) (filename : String) : EngineState × String :=
  match st.vector_store with
  | none => (st, "Error: Base de datos no inicializada.")
  | some s =>
    ({ st with vector_store := some (s.filter fun e => e.source ≠ some filename) },
      "Archivo " ++ "\x27" ++ filename ++ "\x27" ++ " eliminado de la memoria.")

/-- `RagEngine.clear_database`: when the persist directory exists, the
handle is set to `None` first and then `shutil.rmtree` runs; a `rmtree`
fault (`rmtreeFault = some e`) is caught after the handle was already
reset, leaving the directory in place.  When the directory is absent the
state is untouched. -/
def clear_database (st : EngineState) (rmtreeFault : Option String) :
    EngineState × String :=
  if st.persistDirExists then
    match rmtreeFault with
    | none =>
      ({ vector_store := none, persistDirExists := false },
        "Base de datos borrada correctamente.")
    | some e =>
      ({ st with vector_store := none },
        "Error al borrar base de datos: " ++ e)
  else
    (st, "La base de datos ya estaba vacía.")

/-- A chat message, as assembled by `ChatPromptTemplate`: a role and a
content string. -/
structure Message where
  role : String
  content : String
  deriving DecidableEq, Repr

/-- The invocation dict handed to the chain:
`{"input": ..., "chat_history": [...]}`. -/
structure ChainInput where
  input : String
  chat_history : List Message
  deriving Repr

/-- The dict after `RunnablePassthrough.assign(context=...)`: the original
keys plus the computed `context`. -/
structure ChainInputCtx where
  input : String
  chat_history : List Message
  context : String
  deriving Repr

/-- LCEL `|` piping: feed the left runnable's output to the right one. -/
def rpipe (f : α → β) (g : β → γ) : α → γ := fun a => g (f a)

/-- `RunnableLambda`: a plain function used as a pipeline stage. -/
def RunnableLambda (f : α → β) : α → β := f

/-- `StrOutputParser`: the model output is already a string; parsed as-is. -/
def strOutputParser : String → String := id

/-- `RunnablePassthrough.assign(context=f)`: keep `input` and
`chat_history`, add the computed `context`. -/
def assignContext (f : ChainInput → String) : ChainInput → ChainInputCtx :=
  fun x => { input := x.input, chat_history := x.chat_history, context := f x }

/-- The `contextualize_q_system_prompt` literal of `get_chain` (a Python
triple-quoted string; the line breaks and indentation are part of it). -/
def contextualize_q_system_prompt : String :=
  "Dado un historial de chat y la última pregunta del usuario \n        (que podría hacer referencia al contexto del historial), formula una pregunta independiente \n        que pueda entenderse sin el historial. NO la respondas, solo re-formúlala si es necesario \n        o devuélvela tal cual si ya es clara."

/-- `contextualize_q_prompt = ChatPromptTemplate.from_messages([system,
MessagesPlaceholder("chat_history"), ("human", "{input}")])` applied to the
invocation dict: the fixed system message, then the history, then the
user's question. -/
def contextualize_q_prompt (chat_history : List Message) (input : String) :
    List Message :=
  { role := "system", content := contextualize_q_system_prompt }
    :: chat_history ++ [{ role := "human", content := input }]

/-- The `qa_system_prompt` literal with its `{context}` slot filled. -/
def qa_system_prompt (context : String) : String :=
  "Eres un asistente experto para tareas de preguntas y respuestas. \n        Usa los siguientes fragmentos de contexto recuperado para responder a la pregunta. \n        Si no sabes la respuesta, di simplemente que no lo sabes. \n        Usa un máximo de tres oraciones y mantén la respuesta concisa.\n        RESPONDE SIEMPRE EN ESPAÑOL.\n        \n        " ++ context

/-- `qa_prompt = ChatPromptTemplate.from_messages([system(context),
MessagesPlaceholder("chat_history"), ("human", "{input}")])`. -/
def qa_prompt (context : String) (chat_history : List Message) (input : String) :
    List Message :=
  { role := "system", content := qa_system_prompt context }
    :: chat_history ++ [{ role := "human", content := input }]

/-- `format_docs`: join the retrieved chunk texts with a double newline. -/
def format_docs (docs : List IndexEntry) : String :=
  String.intercalate "\n\n" (docs.map IndexEntry.text)

/-- The kind of the similarity-search collaborator:
`store.as_retriever(search_type="similarity", search_kwargs={"k": k})`
invoked on a query returns the `k` nearest entries of the store by vector
similarity, in descending similarity rank.  The ranking itself lives in
the external vector store and embedding model. -/
abbrev SimilaritySearch := Store → String → Nat → List IndexEntry

/-- The kind of the generative-model collaborator (`Ollama(model="llama3")`
invoked on a formatted prompt). -/
abbrev LLM := List Message → String

/-- The `history_aware_retriever` sub-chain of `get_chain`:
`contextualize_q_prompt | llm | StrOutputParser() | retriever`.  The
retriever is the store's similarity search with `k = 4`. -/
def history_aware_retriever (search : SimilaritySearch) (llm : LLM)
    (store : Store) : ChainInput → List IndexEntry :=
  rpipe (rpipe (rpipe
    (fun x : ChainInput => contextualize_q_prompt x.chat_history x.input)
    llm) strOutputParser)
    (fun q => search store q 4)

/-- `RagEngine.get_chain`: `None` when the store handle is uninitialised;
otherwise the LCEL graph
`RunnablePassthrough.assign(context=(history_aware_retriever | RunnableLambda(format_docs))) | qa_prompt | llm | StrOutputParser()`. -/
def get_chain (search : SimilaritySearch) (llm : LLM) (st : EngineState) :
    Option (ChainInput → String) :=
  match st.vector_store with
  | none => none
  | some store =>
    some (rpipe
      (assignContext
        (rpipe (history_aware_retriever search llm store)
          (RunnableLambda format_docs)))
      (rpipe (rpipe
        (fun x : ChainInputCtx => qa_prompt x.context x.chat_history x.input)
        llm) strOutputParser))

/-- One operation of the interactive session surface (`src/app.py`): a
multi-file upload is a sequence of `ingest` calls, and the library view
issues `delete` calls.  Each `ingest` carries the outcomes of its external
collaborators. -/
inductive Op where
  | ingest (splitText : String → List String)
      (loadResult : Except String (List Page)) (storeFault : Option String)
      (original_filename : Option String)
  | delete (filename : String)

/-- The state transition each operation performs on the engine. -/
def step (st : EngineState) : Op → EngineState
  | .ingest sp lr sf ofn => (ingest_pdf sp lr sf st ofn).1
  | .delete f => (delete_file st f).1

/-- Run a session trace from a given engine state. -/
def run (st : EngineState) (ops : List Op) : EngineState := ops.foldl step st

/-- Whether an operation is an ingestion that succeeded (the PDF loaded
and the store write did not fault), i.e. one that returned the
`"Procesado correctamente"` message. -/
def ingestSucceeded : Op → Bool
  | .ingest _ lr sf _ =>
    (match lr with | .ok _ => true | .error _ => false) && sf.isNone
  | .delete _ => false

/-! ## Helper lemmas -/

/-- A successful ingestion (`load` returned pages, the store write did not
fault) produces exactly the old entries followed by the new chunks, and
marks the persist directory as existing. -/
lemma ingest_pdf_ok_state (sp : String → List String) (pages : List Page)
    (st : EngineState) (ofn : Option String) :
    (ingest_pdf sp (.ok pages) none st ofn).1
      = { vector_store :=
            some (st.vector_store.getD []
              ++ split_documents sp (pages.map (stampSource ofn))),
          persistDirExists := true } := by
  cases h : st.vector_store <;> simp [ingest_pdf, h]

/-- Every chunk produced from pages stamped with a non-empty
`original_filename` carries that filename as its `source`. -/
lemma split_documents_stamped (sp : String → List String) (pages : List Page)
    (name : String) (h : name ≠ "") :
    ∀ e ∈ split_documents sp (pages.map (stampSource (some name))),
      e.source = some name := by
  intro e he
  simp only [split_documents, List.mem_flatMap, List.mem_map] at he
  obtain ⟨p, ⟨p0, _, rfl⟩, t, _, rfl⟩ := he
  simp [stampSource, h]

/-- `filterMap` of the `source` field over a list of entries that all
carry the same source is the constant list of that source. -/
lemma filterMap_source_const (l : List IndexEntry) (a : String)
    (h : ∀ e ∈ l, e.source = some a) :
    l.filterMap IndexEntry.source = l.map fun _ => a := by
  induction l with
  | nil => simp
  | cons x xs ih =>
    have hx := h x (List.mem_cons_self x xs)
    simp [List.filterMap_cons, hx, ih fun e he => h e (List.mem_cons_of_mem x he)]

/-- Deduplicating a non-empty constant list yields the singleton. -/
lemma dedup_const {α : Type} [DecidableEq α] (l : List α) (a : α)
    (h1 : l ≠ []) (h2 : ∀ x ∈ l, x = a) : l.dedup = [a] := by
  induction l with
  | nil => exact absurd rfl h1
  | cons x xs ih =>
    have hx : x = a := h2 x (List.mem_cons_self x xs)
    subst hx
    cases xs with
    | nil => simp
    | cons y ys =>
      have hy : y = x := h2 y (by simp)
      have hmem : x ∈ y :: ys := by simp [hy]
      have hrec := ih (by simp) fun e he => h2 e (List.mem_cons_of_mem x he)
      rw [List.dedup_cons_of_mem hmem, hrec]

/-- One session step leaves the store handle uninitialised exactly when it
was uninitialised before and the step was not a successful ingestion. -/
lemma step_vector_store_none (st : EngineState) (op : Op) :
    (step st op).vector_store = none
      ↔ st.vector_store = none ∧ ingestSucceeded op = false := by
  cases op with
  | ingest sp lr sf ofn =>
    cases lr with
    | error e => simp [step, ingest_pdf, ingestSucceeded]
    | ok pages =>
      cases sf with
      | none =>
        cases h : st.vector_store <;>
          simp [step, ingest_pdf, ingestSucceeded, h]
      | some e => simp [step, ingest_pdf, ingestSucceeded]
  | delete f =>
    cases h : st.vector_store <;> simp [step, delete_file, ingestSucceeded, h]

/-- A session trace leaves the store handle uninitialised exactly when it
started uninitialised and contained no successful ingestion. -/
lemma run_vector_store_none (ops : List Op) (st : EngineState) :
    (run st ops).vector_store = none
      ↔ st.vector_store = none ∧ ∀ op ∈ ops, ingestSucceeded op = false := by
  induction ops generalizing st with
  | nil => simp [run]
  | cons op ops ih =>
    have : run st (op :: ops) = run (step st op) ops := rfl
    rw [this, ih, step_vector_store_none]
    constructor
    · rintro ⟨⟨h1, h2⟩, h3⟩
      exact ⟨h1, fun o ho => by
        rcases List.mem_cons.mp ho with rfl | ho
        · exact h2
        · exact h3 o ho⟩
    · rintro ⟨h1, h2⟩
      exact ⟨⟨h1, h2 op (List.mem_cons_self op ops)⟩,
        fun o ho => h2 o (List.mem_cons_of_mem op ho)⟩

/-- `get_chain` returns `None` exactly when the store handle is `None`. -/
lemma get_chain_eq_none (search : SimilaritySearch) (llm : LLM)
    (st : EngineState) :
    get_chain search llm st = none ↔ st.vector_store = none := by
  cases h : st.vector_store <;> simp [get_chain, h]

/-! ## Claim theorems -/

/-- C1 counterexample: the listing does not return the raw `source`
metadata values — `get_ingested_files` applies `os.path.basename`, so a
store holding one entry with source `"tmp/a.pdf"` is listed as
`["a.pdf"]` and the actual source value `"tmp/a.pdf"` does not appear. -/
theorem C1_counterexample :
    get_ingested_files
        { vector_store := some [{ text := "t", source := some "tmp/a.pdf" }],
          persistDirExists := true }
      = ["a.pdf"]
    ∧ "tmp/a.pdf" ∉ get_ingested_files
        { vector_store := some [{ text := "t", source := some "tmp/a.pdf" }],
          persistDirExists := true } := by
  constructor
  · rfl
  · decide

/-- C1 (amended): for every engine state, `get_ingested_files` returns,
without duplicates, exactly the set of `os.path.basename` images of the
distinct `source` metadata values of the entries present in the store
(empty when the handle is uninitialised). -/
theorem C1_listing_is_basename_set (st : EngineState) :
    (get_ingested_files st).toFinset
        = (((st.vector_store.getD []).filterMap IndexEntry.source).map
            basename).toFinset
    ∧ (get_ingested_files st).Nodup := by
  cases h : st.vector_store with
  | none => simp [get_ingested_files, h]
  | some s =>
    refine ⟨?_, by simp [get_ingested_files, h, List.nodup_dedup]⟩
    ext a
    simp [get_ingested_files, h, List.mem_dedup]

/-- C2 counterexample: `ingest_pdf` stamps `source` only when
`original_filename` is truthy in Python; a call with the empty string as
`original_filename` leaves the loader's path-derived `source` (the
temporary file path) on every created Index Entry. -/
theorem C2_counterexample :
    (ingest_pdf (fun t => [t])
        (.ok [{ page_content := "hello", source := "/tmp/t.pdf" }]) none
        freshState (some "")).1.vector_store
      = some [{ text := "hello", source := some "/tmp/t.pdf" }]
    ∧ ("/tmp/t.pdf" : String) ≠ "" := by
  exact ⟨rfl, by decide⟩

/-- C2 (amended): for every call on a readable PDF with a *non-empty*
`original_filename`, the entries created by the call are appended to the
store and every one of them carries `original_filename` as its `source`
metadata — never the temporary path the loader derived. -/
theorem C2_created_entries_carry_filename (sp : String → List String)
    (pages : List Page) (st : EngineState) (name : String) (h : name ≠ "") :
    (ingest_pdf sp (.ok pages) none st (some name)).1.vector_store
      = some (st.vector_store.getD []
          ++ split_documents sp (pages.map (stampSource (some name))))
    ∧ ∀ e ∈ split_documents sp (pages.map (stampSource (some name))),
        e.source = some name := by
  refine ⟨?_, split_documents_stamped sp pages name h⟩
  rw [ingest_pdf_ok_state]

/-- C2 witness: a concrete ingestion of a one-page PDF loaded from
`/tmp/t.pdf` under the user-facing name `a.pdf`. -/
theorem C2_witness :
    (ingest_pdf (fun t => [t])
        (.ok [{ page_content := "hello", source := "/tmp/t.pdf" }]) none
        freshState (some "a.pdf")).1.vector_store
      = some ([]
          ++ split_documents (fun t => [t])
              ([{ page_content := "hello", source := "/tmp/t.pdf" }].map
                (stampSource (some "a.pdf"))))
    ∧ ∀ e ∈ split_documents (fun t => [t])
          ([{ page_content := "hello", source := "/tmp/t.pdf" }].map
            (stampSource (some "a.pdf"))),
        e.source = some "a.pdf" :=
  C2_created_entries_carry_filename (fun t => [t])
    [{ page_content := "hello", source := "/tmp/t.pdf" }]
    freshState "a.pdf" (by decide)

/-- C9: a successful ingestion only appends — the new store contents are
exactly the old entries (unchanged, in order) followed by the new chunks,
so every entry present before the call is still present afterwards. -/
theorem C9_ingest_only_appends (sp : String → List String)
    (pages : List Page) (st : EngineState) (ofn : Option String) :
    (ingest_pdf sp (.ok pages) none st ofn).1.vector_store
      = some (st.vector_store.getD []
          ++ split_documents sp (pages.map (stampSource ofn)))
    ∧ ∀ e ∈ st.vector_store.getD [],
        e ∈ st.vector_store.getD []
          ++ split_documents sp (pages.map (stampSource ofn)) := by
  refine ⟨?_, fun e he => List.mem_append_left _ he⟩
  rw [ingest_pdf_ok_state]

/-- C3: over every session trace of interactive operations started on a
fresh engine (no persisted store yet), `get_chain` returns the absent
value exactly when no ingestion in the trace succeeded — i.e. the answer
pipeline is absent iff no documents have been ingested into the store,
and is present after at least one successful ingestion. -/
theorem C3_chain_absent_iff_no_ingest (search : SimilaritySearch)
    (llm : LLM) (ops : List Op) :
    get_chain search llm (run freshState ops) = none
      ↔ ∀ op ∈ ops, ingestSucceeded op = false := by
  rw [get_chain_eq_none, run_vector_store_none]
  simp [freshState, init_vector_store]

/-- C4 counterexample: deleting a filename that was never ingested does
*not* return a message indicating nothing was removed — it returns the
very same generic success message (`"Archivo ... eliminado de la
memoria."`) that a deletion which actually removed entries returns, so the
message cannot indicate whether anything was removed. -/
theorem C4_counterexample :
    delete_file
        { vector_store := some [{ text := "x", source := some "other.pdf" }],
          persistDirExists := true } "ghost.pdf"
      = ({ vector_store := some [{ text := "x", source := some "other.pdf" }],
           persistDirExists := true },
         "Archivo \x27ghost.pdf\x27 eliminado de la memoria.")
    ∧ (delete_file
        { vector_store := some [{ text := "y", source := some "ghost.pdf" }],
          persistDirExists := true } "ghost.pdf").2
      = (delete_file
        { vector_store := some [{ text := "x", source := some "other.pdf" }],
          persistDirExists := true } "ghost.pdf").2 := by
  constructor
  · rfl
  · rfl

/-- C4 (amended): on an uninitialised store `delete_file` returns an error
message without a fault; on an initialised store it removes exactly the
entries whose `source` equals `filename` (no orphaned chunks remain,
entries with any other source are kept); deleting a filename that was
never ingested leaves the state unchanged and raises no fault, but the
returned message is the same generic deletion message as for a real
removal — it does not indicate that nothing was removed. -/
theorem C4_delete_spec (st : EngineState) (filename : String) :
    (st.vector_store = none →
      delete_file st filename = (st, "Error: Base de datos no inicializada."))
    ∧ (∀ s, st.vector_store = some s →
        (delete_file st filename).1.vector_store
            = some (s.filter fun e => e.source ≠ some filename)
        ∧ (∀ e ∈ s.filter (fun e => e.source ≠ some filename),
            e.source ≠ some filename)
        ∧ (∀ e ∈ s, e.source ≠ some filename →
            e ∈ s.filter (fun e => e.source ≠ some filename))
        ∧ ((∀ e ∈ s, e.source ≠ some filename) →
            (delete_file st filename).1 = st)
        ∧ (delete_file st filename).2
            = "Archivo " ++ "\x27" ++ filename ++ "\x27"
                ++ " eliminado de la memoria.") := by
  constructor
  · intro h
    simp [delete_file, h]
  · intro s hs
    refine ⟨by simp [delete_file, hs], ?_, ?_, ?_, by simp [delete_file, hs]⟩
    · intro e he
      simpa using List.of_mem_filter he
    · intro e he hne
      exact List.mem_filter.mpr ⟨he, by simpa using hne⟩
    · intro hall
      have hf : s.filter (fun e => e.source ≠ some filename) = s :=
        List.filter_eq_self.mpr fun e he => by simpa using hall e he
      cases st with
      | mk vs pd =>
        simp only at hs
        subst hs
        simp [delete_file, hf]
        exact fun a ha => hall a ha

/-- C4 witness: deleting `ghost.pdf` from a store that only holds entries
of `a.pdf` leaves the state unchanged and yields the generic message. -/
theorem C4_witness :
    (delete_file
        { vector_store := some [{ text := "a", source := some "a.pdf" }],
          persistDirExists := true } "ghost.pdf").1
      = { vector_store := some [{ text := "a", source := some "a.pdf" }],
          persistDirExists := true }
    ∧ (delete_file
        { vector_store := some [{ text := "a", source := some "a.pdf" }],
          persistDirExists := true } "ghost.pdf").2
      = "Archivo " ++ "\x27" ++ "ghost.pdf" ++ "\x27"
          ++ " eliminado de la memoria." := by
  have h := (C4_delete_spec
      { vector_store := some [{ text := "a", source := some "a.pdf" }],
        persistDirExists := true } "ghost.pdf").2
      [{ text := "a", source := some "a.pdf" }] rfl
  exact ⟨h.2.2.2.1 (by decide), h.2.2.2.2⟩

/-- C5: for every loader outcome, store-write outcome, engine state and
filename argument, `ingest_pdf` returns a result string — the
`"Procesado correctamente"` message with the exact chunk count on
success, or a `"Error al procesar PDF: ..."` message (leaving the state
untouched) on any failure; it is a total function, so no exception ever
reaches the caller and a multi-file batch (the `src/app.py` upload loop)
continues past a bad file. -/
theorem C5_ingest_always_returns_message (sp : String → List String)
    (lr : Except String (List Page)) (sf : Option String)
    (st : EngineState) (ofn : Option String) :
    (∃ e, (ingest_pdf sp lr sf st ofn).2 = "Error al procesar PDF: " ++ e
      ∧ (ingest_pdf sp lr sf st ofn).1 = st)
    ∨ (∃ pages, lr = .ok pages ∧ sf = none
      ∧ (ingest_pdf sp lr sf st ofn).2
          = "Procesado correctamente: "
            ++ toString (split_documents sp
                (pages.map (stampSource ofn))).length
            ++ " fragmentos de " ++ "\x27" ++ fmtName ofn ++ "\x27.") := by
  cases lr with
  | error e => exact .inl ⟨e, rfl, rfl⟩
  | ok pages =>
    cases sf with
    | none => exact .inr ⟨pages, rfl, rfl, rfl⟩
    | some e => exact .inl ⟨e, rfl, rfl⟩

/-- C6: the assembled pipeline queries the store for the `k = 4` nearest
entries by similarity to the reformulated question, hands the generative
model a context block that is exactly the retrieved chunk texts joined in
rank order by a double newline, and performs one final model invocation
whose output is parsed as plain text. -/
theorem C6_pipeline_structure (search : SimilaritySearch) (llm : LLM)
    (store : Store) (dirExists : Bool) (x : ChainInput) :
    ∃ chain, get_chain search llm
        { vector_store := some store, persistDirExists := dirExists }
          = some chain
      ∧ chain x
          = llm (qa_prompt
              (String.intercalate "\n\n"
                ((search store
                    (llm (contextualize_q_prompt x.chat_history x.input))
                    4).map IndexEntry.text))
              x.chat_history x.input) :=
  ⟨_, rfl, rfl⟩

/-- C7 counterexample: a PDF that yields zero chunks (e.g. no pages) is
ingested "successfully" twice, yet `get_ingested_files` lists *no*
filename for it (not exactly one) and the number of Index Entries does
not strictly increase between the two ingestions. -/
theorem C7_counterexample :
    (ingest_pdf (fun t => [t]) (.ok []) none freshState (some "a.pdf")).2
      = "Procesado correctamente: 0 fragmentos de \x27a.pdf\x27."
    ∧ get_ingested_files
        (ingest_pdf (fun t => [t]) (.ok []) none
          (ingest_pdf (fun t => [t]) (.ok []) none freshState
            (some "a.pdf")).1
          (some "a.pdf")).1
      = []
    ∧ ((ingest_pdf (fun t => [t]) (.ok []) none
          (ingest_pdf (fun t => [t]) (.ok []) none freshState
            (some "a.pdf")).1
          (some "a.pdf")).1.vector_store.getD []).length
      = (((ingest_pdf (fun t => [t]) (.ok []) none freshState
            (some "a.pdf")).1).vector_store.getD []).length := by
  exact ⟨rfl, rfl, rfl⟩

/-- C7 (amended): for every content that yields at least one chunk and
every non-empty filename, ingesting the same content twice under that
filename from a fresh engine leaves `get_ingested_files` listing exactly
one filename for the document (set semantics), while the number of Index
Entries strictly increases (no implicit chunk deduplication). -/
theorem C7_reingest_set_semantics (sp : String → List String)
    (pages : List Page) (name : String) (h1 : name ≠ "")
    (h2 : split_documents sp (pages.map (stampSource (some name))) ≠ []) :
    get_ingested_files
        (ingest_pdf sp (.ok pages) none
          (ingest_pdf sp (.ok pages) none freshState (some name)).1
          (some name)).1
      = [basename name]
    ∧ ((ingest_pdf sp (.ok pages) none freshState
          (some name)).1.vector_store.getD []).length
      < ((ingest_pdf sp (.ok pages) none
          (ingest_pdf sp (.ok pages) none freshState (some name)).1
          (some name)).1.vector_store.getD []).length := by
  set chunks := split_documents sp (pages.map (stampSource (some name)))
    with hchunks
  have hst1 : (ingest_pdf sp (.ok pages) none freshState (some name)).1
      = { vector_store := some chunks, persistDirExists := true } := by
    rw [ingest_pdf_ok_state]
    simp [freshState, init_vector_store, hchunks]
  have hst2 : (ingest_pdf sp (.ok pages) none
        (ingest_pdf sp (.ok pages) none freshState (some name)).1
        (some name)).1
      = { vector_store := some (chunks ++ chunks),
          persistDirExists := true } := by
    rw [ingest_pdf_ok_state, hst1]
    rfl
  have hsrc : ∀ e ∈ chunks ++ chunks, e.source = some name := by
    intro e he
    rcases List.mem_append.mp he with hm | hm <;>
      exact split_documents_stamped sp pages name h1 e hm
  constructor
  · rw [hst2]
    show (((chunks ++ chunks).filterMap IndexEntry.source).map
        basename).dedup = [basename name]
    rw [filterMap_source_const _ name hsrc, List.map_map]
    apply dedup_const
    · simp [h2]
    · intro x hx
      rcases List.mem_map.mp hx with ⟨e, _, rfl⟩
      rfl
  · rw [hst2, hst1]
    have hpos : 0 < chunks.length := List.length_pos.mpr h2
    simp
    omega

/-- C7 witness: a one-page, one-chunk document ingested twice under the
name `a.pdf`. -/
theorem C7_witness :
    get_ingested_files
        (ingest_pdf (fun t => [t])
          (.ok [{ page_content := "hola", source := "/tmp/x.pdf" }]) none
          (ingest_pdf (fun t => [t])
            (.ok [{ page_content := "hola", source := "/tmp/x.pdf" }]) none
            freshState (some "a.pdf")).1
          (some "a.pdf")).1
      = [basename "a.pdf"]
    ∧ ((ingest_pdf (fun t => [t])
          (.ok [{ page_content := "hola", source := "/tmp/x.pdf" }]) none
          freshState (some "a.pdf")).1.vector_store.getD []).length
      < ((ingest_pdf (fun t => [t])
          (.ok [{ page_content := "hola", source := "/tmp/x.pdf" }]) none
          (ingest_pdf (fun t => [t])
            (.ok [{ page_content := "hola", source := "/tmp/x.pdf" }]) none
            freshState (some "a.pdf")).1
          (some "a.pdf")).1.vector_store.getD []).length :=
  C7_reingest_set_semantics (fun t => [t])
    [{ page_content := "hola", source := "/tmp/x.pdf" }] "a.pdf"
    (by decide) (by decide)

/-- C8: the `history_aware_retriever` sub-chain invokes the generative
model on every query — the similarity-search query is always the model's
output on the contextualisation prompt, for every history including the
empty one; the raw question is never handed to the retriever directly. -/
theorem C8_reformulation_always_invoked (search : SimilaritySearch)
    (llm : LLM) (store : Store) (input : String) :
    (∀ history, history_aware_retriever search llm store
        { input := input, chat_history := history }
      = search store (llm (contextualize_q_prompt history input)) 4)
    ∧ history_aware_retriever search llm store
        { input := input, chat_history := [] }
      = search store (llm (contextualize_q_prompt [] input)) 4 :=
  ⟨fun _ => rfl, rfl⟩

/-- C10: `clear_database` is not atomic on error — when the persist
directory exists and `rmtree` faults, it returns an error message with the
in-memory handle already reset to `None` while the directory still
exists; and when the directory is absent it returns the "already empty"
message leaving the state untouched. -/
theorem C10_clear_not_atomic (st : EngineState) :
    (∀ e, st.persistDirExists = true →
      clear_database st (some e)
          = ({ st with vector_store := none },
             "Error al borrar base de datos: " ++ e)
        ∧ (clear_database st (some e)).1.vector_store = none
        ∧ (clear_database st (some e)).1.persistDirExists = true)
    ∧ (st.persistDirExists = false → ∀ fault,
        clear_database st fault
          = (st, "La base de datos ya estaba vacía.")) := by
  constructor
  · intro e h
    refine ⟨by simp [clear_database, h], by simp [clear_database, h],
      by simp [clear_database, h]⟩
  · intro h fault
    simp [clear_database, h]

/-- C10 witness: a failing `rmtree` on an existing directory, and a clear
on an absent directory. -/
theorem C10_witness :
    clear_database { vector_store := some [], persistDirExists := true }
        (some "Permission denied")
      = ({ vector_store := none, persistDirExists := true },
         "Error al borrar base de datos: Permission denied")
    ∧ clear_database { vector_store := none, persistDirExists := false } none
      = ({ vector_store := none, persistDirExists := false },
         "La base de datos ya estaba vacía.") := by
  constructor
  · exact ((C10_clear_not_atomic
      { vector_store := some [], persistDirExists := true }).1
      "Permission denied" rfl).1
  · exact (C10_clear_not_atomic
      { vector_store := none, persistDirExists := false }).2 rfl none

end RagSpec
